import Mathlib

/-!
# truffle-config.js

A shallow embedding of `src/truffle-config.js`: the object literal assigned to
`module.exports`, the evaluation of that literal to a value, and the properties
of the exported value.
-/

namespace TruffleConfig

/-! ## The JavaScript fragment -/

/-- Values produced by evaluating the configuration fragment. The numeric
literals of the source (`7545`, `200`) are integer literals, so numbers are
integers here. An object is its list of own properties in insertion order. -/
inductive JSValue where
  | undefined : JSValue
  | str : String → JSValue
  | num : Int → JSValue
  | bool : Bool → JSValue
  | obj : List (String × JSValue) → JSValue

mutual
/-- Expressions of the fragment: literals, object literals, and a read of
`process.env.NAME` (the one way such a file usually reaches its environment). -/
inductive Expr where
  | str : String → Expr
  | num : Int → Expr
  | bool : Bool → Expr
  | envVar : String → Expr
  | obj : Props → Expr
/-- The property definitions `key: value, ...` of an object literal, in source order. -/
inductive Props where
  | nil : Props
  | cons : String → Expr → Props → Props
end

/-- The process environment: `process.env`. -/
abbrev Env := String → Option String

/-- Defining a property on an object under construction: a key that is already
present keeps its position and takes the new value, a fresh key is appended. -/
def defineProp (k : String) (v : JSValue) : List (String × JSValue) → List (String × JSValue)
  | [] => [(k, v)]
  | (k', v') :: rest =>
    if k' = k then (k', v) :: rest else (k', v') :: defineProp k v rest

mutual
/-- Evaluation of an expression. -/
def eval (env : Env) : Expr → JSValue
  | .str s => .str s
  | .num n => .num n
  | .bool b => .bool b
  | .envVar x =>
    match env x with
    | some s => .str s
    | none => .undefined
  | .obj ps => .obj (evalProps env [] ps)
/-- Evaluation of the property definitions of an object literal, left to right. -/
def evalProps (env : Env) (acc : List (String × JSValue)) : Props → List (String × JSValue)
  | .nil => acc
  | .cons k e ps => evalProps env (defineProp k (eval env e) acc) ps
end

mutual
/-- An expression that reads nothing from the environment. -/
def Expr.isClosed : Expr → Bool
  | .str _ => true
  | .num _ => true
  | .bool _ => true
  | .envVar _ => false
  | .obj ps => ps.isClosed
/-- Property definitions none of which reads the environment. -/
def Props.isClosed : Props → Bool
  | .nil => true
  | .cons _ e ps => e.isClosed && ps.isClosed
end

/-- The keys written in an object literal, in source order, repetitions kept. -/
def Props.keys : Props → List String
  | .nil => []
  | .cons k _ ps => k :: ps.keys

/-! ## The source file -/

/-- The literal `networks.development` (lines 4-8). -/
def development : Expr :=
  .obj (.cons "host" (.str "127.0.0.1")
       (.cons "port" (.num 7545)
       (.cons "network_id" (.str "*") .nil)))

/-- The literal `networks` (lines 3-10). -/
def networks : Expr :=
  .obj (.cons "development" development .nil)

/-- The literal `compilers.solc.settings.optimizer` (lines 15-18). -/
def optimizer : Expr :=
  .obj (.cons "enabled" (.bool true)
       (.cons "runs" (.num 200) .nil))

/-- The literal `compilers.solc` (lines 12-20). -/
def solc : Expr :=
  .obj (.cons "version" (.str "0.8.19")
       (.cons "settings" (.obj (.cons "optimizer" optimizer .nil)) .nil))

/-- The literal `compilers` (lines 11-21). -/
def compilers : Expr :=
  .obj (.cons "solc" solc .nil)

/-- The object literal assigned to `module.exports` (lines 2-26). -/
def truffle_config : Expr :=
  .obj (.cons "networks" networks
       (.cons "compilers" compilers
       (.cons "contracts_directory" (.str "./contracts")
       (.cons "contracts_build_directory" (.str "./build/contracts")
       (.cons "migrations_directory" (.str "./migrations") .nil)))))

/-- The value of `module.exports` after the file has run in environment `env`. -/
def module_exports (env : Env) : JSValue :=
  eval env truffle_config

/-! ## Reading an exported value -/

/-- The own property `k` of a value; `undefined` when the value is not an
object or has no own property of that name. -/
def JSValue.getOwn : JSValue → String → JSValue
  | .obj ps, k => (ps.lookup k).getD .undefined
  | _, _ => .undefined

/-- The own property names of a value, in insertion order. -/
def JSValue.ownKeys : JSValue → List String
  | .obj ps => ps.map Prod.fst
  | _ => []

/-- The value at the end of a path of own properties. -/
def JSValue.getPath (v : JSValue) : List String → JSValue
  | [] => v
  | k :: ks => (v.getOwn k).getPath ks

/-- The own properties of a value as key-value pairs, in insertion order. -/
def JSValue.entries : JSValue → List (String × JSValue)
  | .obj ps => ps
  | _ => []

/-- The value with the own property at the end of the path removed; every
other property keeps its position and value. -/
def JSValue.deleteAt : List String → JSValue → JSValue
  | [], v => v
  | [k], .obj ps => .obj (ps.filter fun p => !(p.1 == k))
  | k :: k' :: ks, .obj ps =>
    .obj (ps.map fun p => if p.1 = k then (p.1, JSValue.deleteAt (k' :: ks) p.2) else p)
  | _ :: _, v => v

/-! ## The data model's field constraints -/

/-- The pieces of a character list between occurrences of `sep`. -/
def splitChars (sep : Char) : List Char → List (List Char)
  | [] => [[]]
  | c :: cs =>
    if c = sep then [] :: splitChars sep cs
    else
      match splitChars sep cs with
      | [] => [[c]]
      | p :: ps => (c :: p) :: ps

/-- A non-empty run of decimal digits. -/
def isNumeral (cs : List Char) : Bool :=
  !cs.isEmpty && cs.all Char.isDigit

/-- A semantic version string: three dot-separated non-empty decimal numerals. -/
def isSemver (s : String) : Bool :=
  match splitChars '.' s.toList with
  | [major, minor, patch] => isNumeral major && isNumeral minor && isNumeral patch
  | _ => false

/-- A port number: an integer from 1 to 65535. -/
def isPort : JSValue → Bool
  | .num p => decide (1 ≤ p) && decide (p ≤ 65535)
  | _ => false

/-- Path `p` is directory `dir` itself or lies below it: `dir` followed by `/`
is a prefix of `p`. -/
def isUnder (dir p : String) : Bool :=
  p == dir || (dir.toList ++ ['/']).isPrefixOf p.toList

/-! ## The operations of the configuration descriptor -/

/-- The error taxonomy of the descriptor's operations. -/
inductive ConfigError where
  | FileNotFoundError : ConfigError
  | MalformedConfigError : ConfigError
  | NotFoundError : ConfigError
  deriving DecidableEq, Repr

/-- Modelled from the spec: the operation `getNetwork(name)` is not in the
source file, which only holds the data. "Looks up a network profile by name;
case-sensitive exact match", failing with `NotFoundError` for an unknown name:
the profiles are the own properties of the `networks` section. -/
def getNetwork (d : JSValue) (name : String) : Except ConfigError JSValue :=
  match (d.getOwn "networks").entries.lookup name with
  | some profile => .ok profile
  | none => .error .NotFoundError

/-- Modelled from the spec: the schema check behind `load()`, which is not in
the source file. The required fields are those of the file format
(`networks.<name>.{host, port, network_id}`, `compilers.solc.version`,
`compilers.solc.settings.optimizer.{enabled, runs}` and the three directories),
each of the type and range the data model gives it. -/
def wellFormedNetwork (profile : JSValue) : Bool :=
  (match profile.getOwn "host" with | .str _ => true | _ => false)
  && isPort (profile.getOwn "port")
  && (match profile.getOwn "network_id" with | .str _ => true | _ => false)

/-- Modelled from the spec: the schema check behind `load()` for the
`compilers` section, which is not in the source file: a semantic version
string, a boolean `enabled` and a non-negative integer `runs`. -/
def wellFormedCompilers (c : JSValue) : Bool :=
  (match c.getPath ["solc", "version"] with | .str v => isSemver v | _ => false)
  && (match c.getPath ["solc", "settings", "optimizer", "enabled"] with
      | .bool _ => true | _ => false)
  && (match c.getPath ["solc", "settings", "optimizer", "runs"] with
      | .num r => decide (0 ≤ r) | _ => false)

/-- Modelled from the spec: the schema check behind `load()` for a whole
definition, which is not in the source file. -/
def wellFormed (d : JSValue) : Bool :=
  (match d.getOwn "networks" with
   | .obj ps => ps.all fun p => wellFormedNetwork p.2
   | _ => false)
  && wellFormedCompilers (d.getOwn "compilers")
  && (match d.getOwn "contracts_directory" with | .str _ => true | _ => false)
  && (match d.getOwn "contracts_build_directory" with | .str _ => true | _ => false)
  && (match d.getOwn "migrations_directory" with | .str _ => true | _ => false)

/-- Modelled from the spec: the operation `load()` is not in the source file
(the file is read by the build tool). "Fails with `MalformedConfigError` if
required fields are absent or of the wrong type (e.g., port not an integer,
version string malformed); fails with `FileNotFoundError` if the underlying
definition is missing"; a well-formed definition yields a descriptor whose
fields equal the source values. The argument is the evaluated definition,
`none` when there is no definition file. -/
def load : Option JSValue → Except ConfigError JSValue
  | none => .error .FileNotFoundError
  | some d => if wellFormed d then .ok d else .error .MalformedConfigError

/-- The source definition with the line `version: "0.8.19",` taken out. -/
def truffle_config_without_version : Expr :=
  .obj (.cons "networks" networks
       (.cons "compilers"
          (.obj (.cons "solc"
            (.obj (.cons "settings" (.obj (.cons "optimizer" optimizer .nil)) .nil)) .nil))
       (.cons "contracts_directory" (.str "./contracts")
       (.cons "contracts_build_directory" (.str "./build/contracts")
       (.cons "migrations_directory" (.str "./migrations") .nil)))))

/-- An environment with no variable set. -/
def emptyEnv : Env := fun _ => none

/-! ## Evaluation of the source -/

/-- The exported value, written out: running the file yields this object in
every environment. -/
theorem module_exports_eq (env : Env) :
    module_exports env = JSValue.obj
      [("networks", .obj [("development", .obj
          [("host", .str "127.0.0.1"), ("port", .num 7545), ("network_id", .str "*")])]),
       ("compilers", .obj [("solc", .obj
          [("version", .str "0.8.19"),
           ("settings", .obj [("optimizer", .obj
              [("enabled", .bool true), ("runs", .num 200)])])])]),
       ("contracts_directory", .str "./contracts"),
       ("contracts_build_directory", .str "./build/contracts"),
       ("migrations_directory", .str "./migrations")] :=
  rfl

mutual
/-- A closed expression has the same value in any two environments. -/
theorem eval_closed (env₁ env₂ : Env) :
    ∀ e : Expr, e.isClosed = true → eval env₁ e = eval env₂ e
  | .str _, _ => rfl
  | .num _, _ => rfl
  | .bool _, _ => rfl
  | .envVar _, h => by simp [Expr.isClosed] at h
  | .obj ps, h => by
    have hps : ps.isClosed = true := by simpa [Expr.isClosed] using h
    simp only [eval]
    rw [evalProps_closed env₁ env₂ ps [] hps]
/-- Closed property definitions build the same object in any two environments. -/
theorem evalProps_closed (env₁ env₂ : Env) :
    ∀ (ps : Props) (acc : List (String × JSValue)), ps.isClosed = true →
      evalProps env₁ acc ps = evalProps env₂ acc ps
  | .nil, _, _ => rfl
  | .cons k e ps, acc, h => by
    have hh : e.isClosed = true ∧ ps.isClosed = true := by
      simpa [Props.isClosed] using h
    simp only [evalProps]
    rw [eval_closed env₁ env₂ e hh.1, evalProps_closed env₁ env₂ ps _ hh.2]
end

/-- The source literal reads nothing from the environment. -/
theorem truffle_config_isClosed : truffle_config.isClosed = true := rfl

/-- Loading the source definition succeeds and returns it unchanged. -/
theorem load_module_exports (env : Env) :
    load (some (module_exports env)) = .ok (module_exports env) :=
  rfl

/-- Taking `compilers.solc.version` out of the exported value gives the value
of the source literal without its `version` line. -/
theorem deleteAt_version_eq (env : Env) :
    (module_exports env).deleteAt ["compilers", "solc", "version"]
      = eval env truffle_config_without_version :=
  rfl

/-- Evaluating the literal without its `version` line raises nothing: the file
has no check of its own, and the value simply has no `version` property. -/
theorem eval_without_version (env : Env) :
    eval env truffle_config_without_version = JSValue.obj
      [("networks", .obj [("development", .obj
          [("host", .str "127.0.0.1"), ("port", .num 7545), ("network_id", .str "*")])]),
       ("compilers", .obj [("solc", .obj
          [("settings", .obj [("optimizer", .obj
              [("enabled", .bool true), ("runs", .num 200)])])])]),
       ("contracts_directory", .str "./contracts"),
       ("contracts_build_directory", .str "./build/contracts"),
       ("migrations_directory", .str "./migrations")]
    ∧ (eval env truffle_config_without_version).getPath ["compilers", "solc", "version"]
        = .undefined :=
  ⟨rfl, rfl⟩

/-- A definition with no string at `compilers.solc.version` is rejected. -/
theorem load_of_version_not_str (d : JSValue)
    (h : ∀ v, d.getPath ["compilers", "solc", "version"] ≠ .str v) :
    load (some d) = .error .MalformedConfigError := by
  have hc : wellFormedCompilers (d.getOwn "compilers") = false := by
    have h' : ∀ v, (d.getOwn "compilers").getPath ["solc", "version"] ≠ .str v := h
    unfold wellFormedCompilers
    cases hv : (d.getOwn "compilers").getPath ["solc", "version"] with
    | str v => exact absurd hv (h' v)
    | _ => simp
  simp [load, wellFormed, hc]

/-! ## The claims -/

/-- C1: the network profile `development` of the exported value exists and is
exactly `host = "127.0.0.1"`, `port = 7545`, `network_id = "*"`. -/
theorem networks_development (env : Env) :
    (module_exports env).getPath ["networks", "development"]
        = .obj [("host", .str "127.0.0.1"), ("port", .num 7545), ("network_id", .str "*")]
    ∧ (module_exports env).getPath ["networks", "development", "host"] = .str "127.0.0.1"
    ∧ (module_exports env).getPath ["networks", "development", "port"] = .num 7545
    ∧ (module_exports env).getPath ["networks", "development", "network_id"] = .str "*" :=
  ⟨rfl, rfl, rfl, rfl⟩

/-- C2: looking up a network profile by name in the exported value fails with
`NotFoundError` exactly for the names other than `development`, and succeeds
exactly for the name `development`. -/
theorem getNetwork_ok_iff (env : Env) (name : String) :
    (getNetwork (module_exports env) name = .error .NotFoundError ↔ name ≠ "development")
    ∧ ((∃ profile, getNetwork (module_exports env) name = .ok profile)
        ↔ name = "development") := by
  rw [module_exports_eq]
  by_cases h : name = "development"
  · subst h
    have hg : getNetwork (JSValue.obj
        [("networks", .obj [("development", .obj
            [("host", .str "127.0.0.1"), ("port", .num 7545), ("network_id", .str "*")])]),
         ("compilers", .obj [("solc", .obj
            [("version", .str "0.8.19"),
             ("settings", .obj [("optimizer", .obj
                [("enabled", .bool true), ("runs", .num 200)])])])]),
         ("contracts_directory", .str "./contracts"),
         ("contracts_build_directory", .str "./build/contracts"),
         ("migrations_directory", .str "./migrations")]) "development"
        = .ok (.obj [("host", .str "127.0.0.1"), ("port", .num 7545),
                     ("network_id", .str "*")]) := rfl
    rw [hg]
    constructor
    · constructor
      · intro hne
        cases hne
      · intro hne
        exact absurd rfl hne
    · constructor
      · intro _
        rfl
      · intro _
        exact ⟨_, rfl⟩
  · have hb : (name == "development") = false := by simpa using h
    have hg : getNetwork (JSValue.obj
        [("networks", .obj [("development", .obj
            [("host", .str "127.0.0.1"), ("port", .num 7545), ("network_id", .str "*")])]),
         ("compilers", .obj [("solc", .obj
            [("version", .str "0.8.19"),
             ("settings", .obj [("optimizer", .obj
                [("enabled", .bool true), ("runs", .num 200)])])])]),
         ("contracts_directory", .str "./contracts"),
         ("contracts_build_directory", .str "./build/contracts"),
         ("migrations_directory", .str "./migrations")]) name = .error .NotFoundError := by
      simp [getNetwork, JSValue.getOwn, JSValue.entries, List.lookup, hb]
    rw [hg]
    constructor
    · constructor
      · intro _
        exact h
      · intro _
        rfl
    · constructor
      · intro hp
        obtain ⟨_, hp⟩ := hp
        cases hp
      · intro hn
        exact absurd hn h

/-- The names `staging` and `Development` are not found. -/
theorem getNetwork_ok_iff_witness :
    getNetwork (module_exports emptyEnv) "staging" = .error .NotFoundError
    ∧ getNetwork (module_exports emptyEnv) "Development" = .error .NotFoundError :=
  ⟨(getNetwork_ok_iff emptyEnv "staging").1.mpr (by decide),
   (getNetwork_ok_iff emptyEnv "Development").1.mpr (by decide)⟩

/-- C3: the `compilers` section of the exported value has the single entry
`solc`, with `version = "0.8.19"`, `optimizer.enabled = true` and
`optimizer.runs = 200` and nothing else. -/
theorem compilers_solc (env : Env) :
    ((module_exports env).getOwn "compilers").ownKeys = ["solc"]
    ∧ (module_exports env).getPath ["compilers", "solc"]
        = .obj [("version", .str "0.8.19"),
                ("settings", .obj [("optimizer", .obj
                  [("enabled", .bool true), ("runs", .num 200)])])]
    ∧ (module_exports env).getPath ["compilers", "solc", "version"] = .str "0.8.19"
    ∧ (module_exports env).getPath ["compilers", "solc", "settings", "optimizer", "enabled"]
        = .bool true
    ∧ (module_exports env).getPath ["compilers", "solc", "settings", "optimizer", "runs"]
        = .num 200 :=
  ⟨rfl, rfl, rfl, rfl, rfl⟩

/-- C4: besides the sections `networks` and `compilers` the exported value has
exactly the three path fields `contracts_directory = "./contracts"`,
`contracts_build_directory = "./build/contracts"` and
`migrations_directory = "./migrations"`. -/
theorem directory_layout (env : Env) :
    (module_exports env).ownKeys
        = ["networks", "compilers",
           "contracts_directory", "contracts_build_directory", "migrations_directory"]
    ∧ (module_exports env).getOwn "contracts_directory" = .str "./contracts"
    ∧ (module_exports env).getOwn "contracts_build_directory" = .str "./build/contracts"
    ∧ (module_exports env).getOwn "migrations_directory" = .str "./migrations" :=
  ⟨rfl, rfl, rfl, rfl⟩

/-- C5: in the exported value every network profile has an integer port from
1 to 65535, `optimizer.runs` is a non-negative integer, and the compiler
version is three dot-separated non-empty decimal numerals. -/
theorem field_constraints (env : Env) :
    (∀ entry ∈ ((module_exports env).getOwn "networks").entries,
        ∃ p : Int, entry.2.getOwn "port" = .num p ∧ 1 ≤ p ∧ p ≤ 65535)
    ∧ (∃ r : Int,
        (module_exports env).getPath ["compilers", "solc", "settings", "optimizer", "runs"]
          = .num r ∧ 0 ≤ r)
    ∧ (∃ v : String,
        (module_exports env).getPath ["compilers", "solc", "version"] = .str v
          ∧ isSemver v = true) := by
  rw [module_exports_eq]
  refine ⟨?_, ⟨200, rfl, by decide⟩, ⟨"0.8.19", rfl, by decide⟩⟩
  intro entry hmem
  have he : entry = ("development", JSValue.obj
      [("host", .str "127.0.0.1"), ("port", .num 7545), ("network_id", .str "*")]) := by
    simpa [JSValue.getOwn, JSValue.entries, List.lookup] using hmem
  subst he
  exact ⟨7545, rfl, by decide, by decide⟩

/-- The profile `development` is an entry of the networks section, and its
port is in range. -/
theorem field_constraints_witness :
    ("development", JSValue.obj
        [("host", .str "127.0.0.1"), ("port", .num 7545), ("network_id", .str "*")])
      ∈ ((module_exports emptyEnv).getOwn "networks").entries
    ∧ ∃ p : Int, JSValue.getOwn (JSValue.obj
        [("host", .str "127.0.0.1"), ("port", .num 7545), ("network_id", .str "*")]) "port"
          = .num p ∧ 1 ≤ p ∧ p ≤ 65535 :=
  have hmem : ("development", JSValue.obj
        [("host", .str "127.0.0.1"), ("port", .num 7545), ("network_id", .str "*")])
      ∈ ((module_exports emptyEnv).getOwn "networks").entries := List.mem_singleton.mpr rfl
  ⟨hmem, (field_constraints emptyEnv).1 _ hmem⟩

/-- C6: the `networks` section of the exported value holds exactly one
profile, and no profile name occurs twice, in the value or in the literal. -/
theorem networks_unique (env : Env) :
    ((module_exports env).getOwn "networks").ownKeys.length = 1
    ∧ ((module_exports env).getOwn "networks").ownKeys.Nodup
    ∧ ((module_exports env).getOwn "networks").ownKeys = ["development"]
    ∧ (match networks with
       | .obj ps => ps.keys
       | _ => []) = ["development"] := by
  rw [module_exports_eq]
  exact ⟨rfl, by simp [JSValue.getOwn, JSValue.ownKeys, List.lookup], rfl, rfl⟩

/-- C7: the source definition without `compilers.solc.version` does not load:
the result is `MalformedConfigError`, not a descriptor. -/
theorem load_without_version (env : Env) :
    load (some ((module_exports env).deleteAt ["compilers", "solc", "version"]))
        = .error .MalformedConfigError
    ∧ load (some (eval env truffle_config_without_version)) = .error .MalformedConfigError :=
  ⟨rfl, rfl⟩

/-- C8: the exported value does not depend on the environment: the literal
reads nothing from it, so any two runs export equal values, equal at every
path. -/
theorem module_exports_constant (env₁ env₂ : Env) :
    truffle_config.isClosed = true
    ∧ module_exports env₁ = module_exports env₂
    ∧ ∀ path, (module_exports env₁).getPath path = (module_exports env₂).getPath path :=
  have h : module_exports env₁ = module_exports env₂ :=
    eval_closed env₁ env₂ truffle_config truffle_config_isClosed
  ⟨truffle_config_isClosed, h, fun path => by rw [h]⟩

/-- C9: the three configured directories are pairwise distinct, and the build
directory is neither the contracts directory or the migrations directory nor
below one of them. -/
theorem directories_separate (env : Env) :
    ∃ c b m : String,
      (module_exports env).getOwn "contracts_directory" = .str c
      ∧ (module_exports env).getOwn "contracts_build_directory" = .str b
      ∧ (module_exports env).getOwn "migrations_directory" = .str m
      ∧ c ≠ b ∧ c ≠ m ∧ b ≠ m
      ∧ isUnder c b = false ∧ isUnder m b = false
      ∧ ("./contracts/".toList.isPrefixOf b.toList) = false
      ∧ ("./migrations/".toList.isPrefixOf b.toList) = false :=
  ⟨"./contracts", "./build/contracts", "./migrations", rfl, rfl, rfl,
    by decide, by decide, by decide, by decide, by decide, by decide, by decide⟩

end TruffleConfig
